import Mathlib

/-!
Verification of the template-driven query execution and schema-validation
subsystem of the `mcp_server_neo4j` server.

The Python code manipulates query strings with `in`, `find`, `replace`,
`split` and slicing.  We embed Python strings as `List Char` (`PyStr`) and
give executable definitions of exactly the string operations the source
uses, then embed each source function over them.
-/

set_option maxHeartbeats 1000000

namespace Neo4jMcp

/-- Python strings, embedded as lists of characters. -/
abbrev PyStr := List Char

/-- Coerce a Lean string literal to a `PyStr`. -/
def pys (s : String) : PyStr := s.data

/-- Find the first occurrence of `pat` in `s`: returns `some (pre, post)`
with `s = pre ++ pat ++ post` at the leftmost occurrence, `none` if `pat`
does not occur.  This is the common core of Python `in`, `find` and
single-occurrence slicing as used by the source. -/
def splitFirst (pat : PyStr) : PyStr → Option (PyStr × PyStr)
  | [] => if pat.isEmpty then some ([], []) else none
  | c :: s =>
    if pat.isPrefixOf (c :: s) then
      some ([], (c :: s).drop pat.length)
    else
      match splitFirst pat s with
      | some (pre, post) => some (c :: pre, post)
      | none => none

/-- Python `pat in s` (substring containment). -/
def containsSub (pat s : PyStr) : Bool :=
  (splitFirst pat s).isSome

/-- Python `s.replace(pat, repl)`: replace every (non-overlapping,
leftmost-first) occurrence.  Fuel-based so that it is structurally
recursive; `fuel = s.length` always suffices. -/
def replaceAllAux (pat repl : PyStr) : Nat → PyStr → PyStr
  | 0, s => s
  | _, [] => []
  | fuel + 1, c :: s =>
    if pat.isPrefixOf (c :: s) && !pat.isEmpty then
      repl ++ replaceAllAux pat repl fuel (s.drop (pat.length - 1))
    else
      c :: replaceAllAux pat repl fuel s

/-- Python `s.replace(pat, repl)` for a non-empty `pat`. -/
def replaceAll (pat repl s : PyStr) : PyStr :=
  replaceAllAux pat repl s.length s

/-- Python `s.split(sep)` for non-empty `sep` (fuel-based). -/
def splitAllAux (sep : PyStr) : Nat → PyStr → List PyStr
  | 0, s => [s]
  | fuel + 1, s =>
    match splitFirst sep s with
    | some (pre, post) => pre :: splitAllAux sep fuel post
    | none => [s]

/-- Python `s.split(sep)` for non-empty `sep`. -/
def splitAll (sep s : PyStr) : List PyStr :=
  splitAllAux sep s.length s

/-- Number of (non-overlapping, leftmost-first) occurrences of a
non-empty `pat` in `s` (fuel-based). -/
def countOccurAux (pat : PyStr) : Nat → PyStr → Nat
  | 0, _ => 0
  | fuel + 1, s =>
    match splitFirst pat s with
    | some (_, post) => 1 + countOccurAux pat fuel post
    | none => 0

/-- Number of occurrences of a non-empty `pat` in `s`. -/
def countOccur (pat s : PyStr) : Nat :=
  countOccurAux pat s.length s

/-!
### Embedding of `TemplateExecutor.execute_template` query customizations

Source: `src/neo4j/src/mcp_server_neo4j/tools/template_executor.py`,
lines 55-96.  The three customization steps mutate the query text in a
fixed order: `additional_where`, then `order_by`, then `limit`.
-/

/-- Lines 56-72: the `additional_where` customization.  If `"WHERE"` occurs
in the query, Python `str.replace` rewrites **every** occurrence to
`"WHERE {clause} AND"`; otherwise the clause is inserted after the first
`")"` (`query.find(")")`), and if there is no `")"` the query is returned
unchanged. -/
def applyAdditionalWhere (whereClause query : PyStr) : PyStr :=
  if containsSub (pys "WHERE") query then
    replaceAll (pys "WHERE") (pys "WHERE " ++ whereClause ++ pys " AND") query
  else
    match splitFirst (pys ")") query with
    | some (pre, post) => pre ++ pys ")" ++ (pys "\nWHERE " ++ whereClause) ++ post
    | none => query

/-- Lines 74-88: the `order_by` customization.  If `"ORDER BY"` occurs, the
query is truncated at its first occurrence (`query[:query.find("ORDER BY")]`)
and `"ORDER BY {order_by}"` is appended; otherwise, if `"LIMIT"` occurs,
every `"LIMIT"` is rewritten to `"ORDER BY {order_by}\nLIMIT"`; otherwise
`"\nORDER BY {order_by}"` is appended. -/
def applyOrderBy (orderBy query : PyStr) : PyStr :=
  if containsSub (pys "ORDER BY") query then
    (match splitFirst (pys "ORDER BY") query with
     | some (pre, _) => pre
     | none => []) ++ pys "ORDER BY " ++ orderBy
  else if containsSub (pys "LIMIT") query then
    replaceAll (pys "LIMIT") (pys "ORDER BY " ++ orderBy ++ pys "\nLIMIT") query
  else
    query ++ pys "\nORDER BY " ++ orderBy

/-- Lines 90-96: the `limit` customization.  If `"LIMIT"` occurs, the query
is truncated at its first occurrence and `"LIMIT {limit}"` is appended;
otherwise `"\nLIMIT {limit}"` is appended.  `limitVal` is the customization
value as formatted by the f-string. -/
def applyLimit (limitVal query : PyStr) : PyStr :=
  if containsSub (pys "LIMIT") query then
    (match splitFirst (pys "LIMIT") query with
     | some (pre, _) => pre
     | none => []) ++ pys "LIMIT " ++ limitVal
  else
    query ++ pys "\nLIMIT " ++ limitVal

/-- The `customizations` mapping of a `TemplateExecutionRequest`: the three
keys read by `execute_template` (each optional). -/
structure Customizations where
  additional_where : Option PyStr := none
  order_by : Option PyStr := none
  limit : Option PyStr := none

/-- Lines 55-96 as a whole: apply the customizations present, in source
order (where-clause, then order-by, then limit). -/
def applyCustomizations (cust : Customizations) (query : PyStr) : PyStr :=
  let q1 := match cust.additional_where with
    | some wc => applyAdditionalWhere wc query
    | none => query
  let q2 := match cust.order_by with
    | some ob => applyOrderBy ob q1
    | none => q1
  match cust.limit with
  | some lv => applyLimit lv q2
  | none => q2

/-!
### Embedding of `SchemaValidator`

Source: `src/neo4j/src/mcp_server_neo4j/validation/schema_validator.py`.
The database boundary is embedded as data: `get_current_schema`'s result
is a `CurrentSchema` value, and the `EXPLAIN` dry-run of
`validate_query_against_schema` (session.run + consume + plan traversal)
is an `Except` value — `Except.error e` models the `except Exception`
branch with message `e`, `Except.ok info` carries the identifier and
operator sets that `extract_from_plan` accumulates from the plan tree.
Python sets are modelled as lists; set construction deduplicates and
iteration order is list order.
-/

/-- The apostrophe character (used in the source's issue messages and in
Python's set repr). -/
def apos : PyStr := [Char.ofNat 39]

/-- One row of `apoc.meta.nodeTypeProperties()` as collected by
`get_current_schema` (lines 22-31). -/
structure NodeTypeRow where
  nodeType : PyStr
  propertyName : PyStr := []
  propertyTypes : List PyStr := []

/-- One row of `apoc.meta.relTypeProperties()` as collected by
`get_current_schema` (lines 34-43). -/
structure RelTypeRow where
  relType : PyStr
  propertyName : PyStr := []
  propertyTypes : List PyStr := []

/-- The dictionary returned by `get_current_schema` (lines 45-48). -/
structure CurrentSchema where
  nodes : List NodeTypeRow
  relationships : List RelTypeRow

/-- The identifier and operator sets accumulated by `extract_from_plan`
(lines 69-80) from a successful `EXPLAIN` dry-run. -/
structure ExplainInfo where
  identifiers : List PyStr
  operators : List PyStr

/-- Python's `repr` of a set of strings, e.g. `{'B'}` (order = list
order). -/
def renderStrSet (xs : List PyStr) : PyStr :=
  pys "\x7b" ++ List.intercalate (pys ", ") (xs.map (fun x => apos ++ x ++ apos)) ++ pys "\x7d"

/-- Line 97: `ident.split(":")[1]` (guarded by `":" in ident`). -/
def labelOfIdent (ident : PyStr) : PyStr :=
  (splitAll (pys ":") ident).getD 1 []

/-- Lines 50-111, `validate_query_against_schema`: a list of warnings,
never an exception.  The single `except` branch (lines 108-109) converts
any dry-run failure into one warning. -/
def validate_query_against_schema (explainResult : Except PyStr ExplainInfo)
    (schema : CurrentSchema) : List PyStr :=
  match explainResult with
  | Except.error e => [pys "Could not validate query: " ++ e]
  | Except.ok info =>
    let w1 := if pys "NodeByLabelScan" ∈ info.operators then
        [pys "Query uses label scan. Consider adding indexes for better performance."]
      else []
    let w2 := if pys "CartesianProduct" ∈ info.operators then
        [pys "Query includes cartesian product which may impact performance."]
      else []
    let schemaLabels := (schema.nodes.map NodeTypeRow.nodeType).dedup
    let queryLabels :=
      ((info.identifiers.filter (fun i => containsSub (pys ":") i)).map labelOfIdent).dedup
    let unknownLabels := queryLabels.filter (fun l => !(schemaLabels.contains l))
    let w3 := if unknownLabels ≠ [] then
        [pys "Query references unknown labels: " ++ renderStrSet unknownLabels]
      else []
    w1 ++ w2 ++ w3

/-- `validate_query_against_schema` as called through the driver: the
oracle maps the `EXPLAIN`-prefixed query text and the bound parameters to
the dry-run outcome (line 65). -/
def validate_query_with_driver
    (explainOracle : PyStr → List (PyStr × PyStr) → Except PyStr ExplainInfo)
    (query : PyStr) (parameters : List (PyStr × PyStr)) (schema : CurrentSchema) : List PyStr :=
  validate_query_against_schema (explainOracle (pys "EXPLAIN " ++ query) parameters) schema

/-- The fixed text of the missing-labels issue (line 135). -/
def labelsMissingMsg : PyStr :=
  pys "Template requires labels that don" ++ apos ++ pys "t exist in schema: "

/-- The fixed text of the missing-relationship-types issue (line 146). -/
def relsMissingMsg : PyStr :=
  pys "Template requires relationship types that don" ++ apos ++ pys "t exist in schema: "

/-- Lines 113-160, `validate_template_compatibility`: one issue per
non-empty difference `required − present`, then the query warnings, each
prefixed with `"Template query warning: "`. -/
def validate_template_compatibility (schema : CurrentSchema)
    (explainResult : Except PyStr ExplainInfo)
    (required_labels required_relationship_types : List PyStr) : List PyStr :=
  let schemaLabels := (schema.nodes.map NodeTypeRow.nodeType).dedup
  let missingLabels := required_labels.dedup.filter (fun l => !(schemaLabels.contains l))
  let i1 := if missingLabels ≠ [] then [labelsMissingMsg ++ renderStrSet missingLabels] else []
  let schemaRelTypes := (schema.relationships.map RelTypeRow.relType).dedup
  let missingRels :=
    required_relationship_types.dedup.filter (fun r => !(schemaRelTypes.contains r))
  let i2 := if missingRels ≠ [] then [relsMissingMsg ++ renderStrSet missingRels] else []
  let queryWarnings := validate_query_against_schema explainResult schema
  i1 ++ i2 ++ queryWarnings.map (fun w => pys "Template query warning: " ++ w)

/-- Missing-labels issues are the ones carrying the fixed missing-labels
text. -/
def isMissingLabelsIssue (s : PyStr) : Bool :=
  labelsMissingMsg.isPrefixOf s

/-!
### Embedding of Python values and `int()` / `str()` conversion

Template parameters are arbitrary Python values; the validation code only
ever applies `str(...)` and `int(...)` to them, so strings and integers
suffice for the embedding.
-/

/-- A Python value appearing as a template parameter. -/
inductive PyVal where
  | vstr (s : PyStr)
  | vint (n : Int)
deriving DecidableEq

/-- Python `str(n)` for an integer. -/
def intToPyStr (n : Int) : PyStr := (toString n).data

/-- Python `str(value)`. -/
def pyToStr : PyVal → PyStr
  | PyVal.vstr s => s
  | PyVal.vint n => intToPyStr n

/-- The whitespace characters Python `int()` strips. -/
def isPyWs (c : Char) : Bool := c = ' ' || c = '\t' || c = '\n' || c = '\r'

/-- Strip leading and trailing whitespace. -/
def stripWs (s : PyStr) : PyStr :=
  ((s.dropWhile isPyWs).reverse.dropWhile isPyWs).reverse

/-- Value of a non-empty all-digit string. -/
def digitsToNat (ds : PyStr) : Nat :=
  ds.foldl (fun a c => 10 * a + (c.toNat - 48)) 0

/-- Parse a non-empty run of decimal digits, else `none`. -/
def parseNatDigits (ds : PyStr) : Option Nat :=
  if ds ≠ [] ∧ ds.all Char.isDigit then some (digitsToNat ds) else none

/-- Python `int(s)` on a string: optional surrounding whitespace, optional
sign, decimal digits; anything else raises `ValueError`, embedded as
`none`. -/
def parsePyInt (s : PyStr) : Option Int :=
  match stripWs s with
  | '+' :: ds => (parseNatDigits ds).map Int.ofNat
  | '-' :: ds => (parseNatDigits ds).map (fun n => -(n : Int))
  | ds => (parseNatDigits ds).map Int.ofNat

/-- Python `int(value)`: identity on integers, parse on strings; `none`
embeds the `ValueError`/`TypeError` that `except` catches. -/
def pyIntOf : PyVal → Option Int
  | PyVal.vint n => some n
  | PyVal.vstr s => parsePyInt s

/-!
### Embedding of `ResourceHandler` (resources/handlers.py)
-/

/-- A raised Python exception, as observed by the façade: class name and
message. -/
structure PyError where
  className : PyStr
  message : PyStr
deriving DecidableEq

/-- The `IndexError` raised by `rule.split(...)[1]` when the split has no
second element; `except (ValueError, TypeError)` does **not** catch it. -/
def indexError : PyError :=
  ⟨pys "IndexError", pys "list index out of range"⟩

/-- Line 524: `f"Invalid value for parameter '{param}'"`. -/
def invalidValueMsg (param : PyStr) : PyStr :=
  pys "Invalid value for parameter " ++ apos ++ param ++ apos

/-- Lines 508-524 of `ResourceHandler.validate_template`: the body of the
per-parameter loop for one `(param, rule)` pair whose parameter was
supplied.  The two recognized rule forms are detected by substring
matching; `int()` failures are caught and appended as an invalid-value
issue (issues appended before the failure are kept); the `[1]` indexing
after `split` can raise an uncaught `IndexError`. -/
def applyRule (param rule : PyStr) (value : PyVal) : Except PyError (List PyStr) :=
  if containsSub (pys "must be one of") rule then
    match (splitAll (pys ": ") rule).get? 1 with
    | none => Except.error indexError
    | some second =>
      let allowed := splitAll (pys ", ") second
      if pyToStr value ∈ allowed then Except.ok []
      else Except.ok [pys "Parameter " ++ apos ++ param ++ apos ++ pys " " ++ rule]
  else if containsSub (pys "must be a positive integer") rule then
    match pyIntOf value with
    | none => Except.ok [invalidValueMsg param]
    | some v =>
      let issues1 := if v ≤ 0 then
          [pys "Parameter " ++ apos ++ param ++ apos ++ pys " must be positive"]
        else []
      if containsSub (pys "less than or equal to") rule then
        match (splitAll (pys "less than or equal to ") rule).get? 1 with
        | none => Except.error indexError
        | some nStr =>
          match parsePyInt nStr with
          | none => Except.ok (issues1 ++ [invalidValueMsg param])
          | some lim =>
            Except.ok (issues1 ++
              (if v > lim then
                [pys "Parameter " ++ apos ++ param ++ apos ++ pys " must be <= " ++
                  intToPyStr lim]
               else []))
      else Except.ok issues1
  else Except.ok []

/-- Python dict lookup on a keyed association list. -/
def lookupParam (parameters : List (PyStr × PyVal)) (k : PyStr) : Option PyVal :=
  (parameters.find? (fun p => p.1 == k)).map Prod.snd

/-- Lines 506-524: the whole validation-rule loop.  Parameters not
supplied are skipped (`if param in parameters`); an uncaught exception
aborts the loop. -/
def validateParams : List (PyStr × PyStr) → List (PyStr × PyVal) → Except PyError (List PyStr)
  | [], _ => Except.ok []
  | (param, rule) :: rest, parameters =>
    match lookupParam parameters param with
    | none => validateParams rest parameters
    | some v =>
      match applyRule param rule v with
      | Except.error e => Except.error e
      | Except.ok issues =>
        match validateParams rest parameters with
        | Except.error e => Except.error e
        | Except.ok more => Except.ok (issues ++ more)

/-- A `QueryTemplate` of the registry (resources/templates.py lines 9-37);
the documentation-only example invocation field is omitted (`example` is a
reserved word here and the field is never read by the embedded code). -/
structure QueryTemplate where
  name : PyStr
  query : PyStr
  description : PyStr := []
  required_labels : List PyStr := []
  required_relationships : List PyStr := []
  parameter_descriptions : List (PyStr × PyStr) := []
  category : PyStr := []
  validation_rules : List (PyStr × PyStr) := []

/-- Registry lookup, `QUERY_TEMPLATES[name]`. -/
def findTemplate (registry : List (PyStr × QueryTemplate)) (name : PyStr) :
    Option QueryTemplate :=
  (registry.find? (fun p => p.1 == name)).map Prod.snd

/-- Lines 500-533, `ResourceHandler.validate_template`: unknown template
raises `ValueError`; otherwise parameter-rule issues followed by the
schema-compatibility issues. -/
def handler_validate_template (registry : List (PyStr × QueryTemplate))
    (schema : CurrentSchema) (explainResult : Except PyStr ExplainInfo)
    (template_name : PyStr) (parameters : List (PyStr × PyVal)) :
    Except PyError (List PyStr) :=
  match findTemplate registry template_name with
  | none => Except.error ⟨pys "ValueError", pys "Unknown template: " ++ template_name⟩
  | some template =>
    match validateParams template.validation_rules parameters with
    | Except.error e => Except.error e
    | Except.ok issues =>
      Except.ok (issues ++ validate_template_compatibility schema explainResult
        template.required_labels template.required_relationships)

/-- An MCP `TextContent` block. -/
structure TextContent where
  type : PyStr
  text : PyStr
deriving DecidableEq

/-- A database result row. -/
abbrev Row := List (PyStr × PyVal)

/-- JSON rendering of a value (only what the response dump needs). -/
def renderPyVal : PyVal → PyStr
  | PyVal.vstr s => pys "\x22" ++ s ++ pys "\x22"
  | PyVal.vint n => intToPyStr n

/-- JSON rendering of a row. -/
def renderRow (r : Row) : PyStr :=
  pys "\x7b" ++
    List.intercalate (pys ", ")
      (r.map (fun p => pys "\x22" ++ p.1 ++ pys "\x22: " ++ renderPyVal p.2)) ++
  pys "\x7d"

/-- The `QueryResponse.model_dump_json` payload of the template-tool path
(lines 218-227), with the wall-clock timestamp outside the embedding. -/
def renderTemplateResponse (rows : List Row) (templateName : PyStr) : PyStr :=
  pys "\x7b\x22results\x22: [" ++ List.intercalate (pys ", ") (rows.map renderRow) ++
  pys "], \x22total_results\x22: " ++ intToPyStr rows.length ++
  pys ", \x22template_used\x22: \x22" ++ templateName ++ pys "\x22\x7d"

/-- Outcome of `_handle_template_tool`: returned content, or a raised
exception (to be caught by `handle_call_tool`). -/
inductive ToolOutcome where
  | content (items : List TextContent)
  | raised (e : PyError)
deriving DecidableEq

/-- Lines 202-228, `ResourceHandler._handle_template_tool`, paired with
the trace of query texts actually run against a database session (second
component; empty = no session use).  Unknown template and non-empty
validation issues raise before the session block; otherwise the template
query runs with the given arguments and the response is rendered. -/
def handle_template_tool (registry : List (PyStr × QueryTemplate))
    (schema : CurrentSchema) (explainResult : Except PyStr ExplainInfo)
    (dbRun : PyStr → List (PyStr × PyVal) → List Row)
    (template_name : PyStr) (arguments : List (PyStr × PyVal)) :
    ToolOutcome × List PyStr :=
  match findTemplate registry template_name with
  | none =>
    (ToolOutcome.raised ⟨pys "ValueError", pys "Unknown template: " ++ template_name⟩, [])
  | some template =>
    match handler_validate_template registry schema explainResult template_name arguments with
    | Except.error e => (ToolOutcome.raised e, [])
    | Except.ok issues =>
      if issues ≠ [] then
        (ToolOutcome.raised ⟨pys "ValidationError", List.intercalate (pys "\n") issues⟩, [])
      else
        let data := dbRun template.query arguments
        (ToolOutcome.content [⟨pys "text", renderTemplateResponse data template_name⟩],
          [template.query])

/-- The error envelope `json.dumps({"error": ..., "details": ...},
indent=2)` of `handle_call_tool` (lines 172-178), for messages without
JSON-escapable characters. -/
def jsonErrorDump (cls details : PyStr) : PyStr :=
  pys "\x7b\n  \x22error\x22: \x22" ++ cls ++ pys "\x22,\n  \x22details\x22: \x22" ++
    details ++ pys "\x22\n\x7d"

/-- Lines 155-178, `ResourceHandler.handle_call_tool`: route by name
(`template.` prefix, the three core graph tools, `execute-cypher`), raise
`ValueError` for anything else, and catch every exception into a
structured error envelope.  The downstream handlers are inputs; a raised
downstream exception is their `Except.error`.  `name.split(".", 1)[1]` is
the text after the first `"."` (under the `startswith("template.")` guard
a dot exists). -/
def handle_call_tool
    (templateHandler : PyStr → List (PyStr × PyVal) → Except PyError (List TextContent))
    (graphHandler : PyStr → List (PyStr × PyVal) → Except PyError (List TextContent))
    (cypherHandler : List (PyStr × PyVal) → Except PyError (List TextContent))
    (name : PyStr) (arguments : List (PyStr × PyVal)) : List TextContent :=
  let attempt : Except PyError (List TextContent) :=
    if (pys "template.").isPrefixOf name then
      templateHandler (((splitFirst (pys ".") name).map Prod.snd).getD []) arguments
    else if name = pys "store-facts" ∨ name = pys "query-knowledge" ∨
        name = pys "find-connections" then
      graphHandler name arguments
    else if name = pys "execute-cypher" then
      cypherHandler arguments
    else
      Except.error ⟨pys "ValueError", pys "Unknown tool: " ++ name⟩
  match attempt with
  | Except.ok content => content
  | Except.error e => [⟨pys "text", jsonErrorDump e.className e.message⟩]

/-!
### Embedding of `_find_connections` (server.py lines 341-405, identical
query construction in resources/handlers.py lines 369-405)
-/

/-- `ConnectionParams` (server.py lines 42-56): plain fields, integer
typing for `max_depth` with default `3`, and no further validation. -/
structure ConnectionParams where
  concept_a : PyStr
  concept_b : PyStr
  max_depth : Int := 3

/-- The f-string text before the interpolated `max_depth`. -/
def fcHead : PyStr :=
  pys "\n        MATCH path = shortestPath(\n            (a:Entity \x7bname: $concept_a\x7d)-[r:RELATES*1.."

/-- The f-string text after the interpolated `max_depth`. -/
def fcTail : PyStr :=
  pys "]-(b:Entity \x7bname: $concept_b\x7d)\n        )\n        RETURN \x7b\n            entities: [n in nodes(path) | \x7b\n                name: n.name,\n                type: coalesce(n.type, " ++
  apos ++ pys "Entity" ++ apos ++
  pys ")\n            \x7d],\n            relations: [r in relationships(path) | \x7b\n                relation_type: r.type,\n                context: r.context,\n                created_at: r.created_at,\n                from_entity: \x7b\n                    name: startNode(r).name,\n                    type: coalesce(startNode(r).type, " ++
  apos ++ pys "Entity" ++ apos ++
  pys ")\n                \x7d,\n                to_entity: \x7b\n                    name: endNode(r).name,\n                    type: coalesce(endNode(r).type, " ++
  apos ++ pys "Entity" ++ apos ++
  pys ")\n                \x7d\n            \x7d]\n        \x7d as path\n        "

/-- Lines 344-367: the query text, with `args.max_depth` interpolated
directly into the variable-length pattern bound (`RELATES*1..{max_depth}`)
by the f-string. -/
def find_connections_query (args : ConnectionParams) : PyStr :=
  fcHead ++ intToPyStr args.max_depth ++ fcTail

/-- Lines 370-373: the bound parameter map; `max_depth` is deliberately
omitted ("Remove max_depth from parameters since it's now in the query
string"). -/
def find_connections_params (args : ConnectionParams) : List (PyStr × PyStr) :=
  [(pys "concept_a", args.concept_a), (pys "concept_b", args.concept_b)]

/-!
### Embedding of `TemplateExecutor.execute_template` control flow
(tools/template_executor.py lines 30-128)
-/

/-- `TemplateExecutionRequest` (template_executor.py lines 10-14). -/
structure TemplateExecutionRequest where
  template_name : PyStr
  parameters : List (PyStr × PyVal)
  customizations : Option Customizations := none

/-- `TemplateExecutionResponse` (lines 16-21); the best-effort
`execution_stats` collected from `result.consume()` lie outside the
embedding (their absence must not affect the rest of the response,
lines 104-114). -/
structure TemplateExecutionResponse where
  results : List Row
  template_used : PyStr
  warnings : List PyStr

/-- Lines 50-96: the final query text — the template's query with the
request's customizations applied when present
(`if request.customizations:`; an absent mapping leaves the text
unchanged). -/
def executedQueryText (template : QueryTemplate) (request : TemplateExecutionRequest) : PyStr :=
  match request.customizations with
  | some cust => applyCustomizations cust template.query
  | none => template.query

/-- Lines 30-128, `execute_template`, paired with the trace of query texts
run in a database session (second component; empty = no session use).  An
unregistered name raises `ValueError` (lines 37-38); otherwise the
schema-compatibility issues are computed (lines 43-48), the customized
query is executed with the request's parameters (lines 100-101), and the
response carries the issues as `warnings` (line 123); a database failure
is logged and re-raised (lines 126-128).  No Loaded/Rejected state and no
rejection failure path exist. -/
def execute_template (registry : List (PyStr × QueryTemplate)) (schema : CurrentSchema)
    (explainResult : Except PyStr ExplainInfo)
    (dbRun : PyStr → List (PyStr × PyVal) → Except PyError (List Row))
    (request : TemplateExecutionRequest) :
    Except PyError TemplateExecutionResponse × List PyStr :=
  match findTemplate registry request.template_name with
  | none =>
    (Except.error ⟨pys "ValueError", pys "Unknown template: " ++ request.template_name⟩, [])
  | some template =>
    let validation_issues := validate_template_compatibility schema explainResult
      template.required_labels template.required_relationships
    let query := executedQueryText template request
    match dbRun query request.parameters with
    | Except.error e => (Except.error e, [query])
    | Except.ok data =>
      (Except.ok ⟨data, request.template_name, validation_issues⟩, [query])

/-! ### Basic lemmas about the string model -/

theorem splitFirst_cons_pos {pat s : PyStr} {c : Char} (h : pat.isPrefixOf (c :: s)) :
    splitFirst pat (c :: s) = some ([], (c :: s).drop pat.length) := by
  simp [splitFirst, h]

theorem splitFirst_cons_neg {pat s : PyStr} {c : Char} (h : ¬ pat.isPrefixOf (c :: s)) :
    splitFirst pat (c :: s) =
      match splitFirst pat s with
      | some (pre, post) => some (c :: pre, post)
      | none => none := by
  simp [splitFirst, h]

theorem splitFirst_self_append {pat rest : PyStr} (hpat : pat ≠ []) :
    splitFirst pat (pat ++ rest) = some ([], rest) := by
  cases pat with
  | nil => exact absurd rfl hpat
  | cons p ps =>
    have hpre : (p :: ps).isPrefixOf (p :: (ps ++ rest)) :=
      List.isPrefixOf_iff_prefix.mpr (by simp)
    rw [List.cons_append, splitFirst_cons_pos hpre]
    simp [List.drop_left ps rest]

theorem splitFirst_sound {pat : PyStr} :
    ∀ {s pre post : PyStr}, splitFirst pat s = some (pre, post) → s = pre ++ pat ++ post := by
  intro s
  induction s with
  | nil =>
    intro pre post h
    simp only [splitFirst] at h
    split at h
    · next he =>
      simp only [Option.some.injEq, Prod.mk.injEq] at h
      obtain ⟨h1, h2⟩ := h
      subst h1; subst h2
      simp [List.isEmpty_iff.mp he]
    · exact absurd h (by simp)
  | cons c s ih =>
    intro pre post h
    by_cases hp : pat.isPrefixOf (c :: s)
    · rw [splitFirst_cons_pos hp] at h
      simp only [Option.some.injEq, Prod.mk.injEq] at h
      obtain ⟨h1, h2⟩ := h
      subst h1; subst h2
      obtain ⟨t, ht⟩ := List.isPrefixOf_iff_prefix.mp hp
      rw [← ht, List.drop_left pat t, List.nil_append, ht]
    · rw [splitFirst_cons_neg hp] at h
      rcases hsp : splitFirst pat s with _ | ⟨pre2, post2⟩ <;> rw [hsp] at h
      · exact absurd h (by simp)
      · simp only [Option.some.injEq, Prod.mk.injEq] at h
        obtain ⟨h1, h2⟩ := h
        subst h1; subst h2
        simp [ih hsp]

theorem prefix_append_cons_cases :
    ∀ (a : PyStr) {pat t : PyStr} {c : Char}, pat <+: a ++ c :: t → pat <+: a ∨ c ∈ pat := by
  intro a
  induction a with
  | nil =>
    intro pat t c h
    cases pat with
    | nil => exact Or.inl List.nil_prefix
    | cons p ps =>
      obtain ⟨rfl, -⟩ := List.cons_prefix_cons.mp h
      exact Or.inr (List.mem_cons_self ..)
  | cons x a ih =>
    intro pat t c h
    cases pat with
    | nil => exact Or.inl List.nil_prefix
    | cons p ps =>
      obtain ⟨rfl, hps⟩ := List.cons_prefix_cons.mp h
      rcases ih hps with h1 | h2
      · exact Or.inl (List.cons_prefix_cons.mpr ⟨rfl, h1⟩)
      · exact Or.inr (List.mem_cons_of_mem _ h2)

theorem containsSub_of_prefix {pat s : PyStr} (h : pat <+: s) : containsSub pat s = true := by
  cases s with
  | nil =>
    rw [List.prefix_nil.mp h]
    simp [containsSub, splitFirst]
  | cons c t =>
    rw [containsSub, splitFirst_cons_pos (List.isPrefixOf_iff_prefix.mpr h)]
    rfl

theorem containsSub_cons {pat s : PyStr} (c : Char) (h : containsSub pat s = true) :
    containsSub pat (c :: s) = true := by
  by_cases hp : pat.isPrefixOf (c :: s)
  · rw [containsSub, splitFirst_cons_pos hp]; rfl
  · rw [containsSub, splitFirst_cons_neg hp]
    rcases hsp : splitFirst pat s with _ | ⟨pre, post⟩
    · rw [containsSub, hsp] at h; simp at h
    · simp

theorem containsSub_cons_false {pat s : PyStr} {c : Char}
    (h : containsSub pat (c :: s) = false) :
    pat.isPrefixOf (c :: s) = false ∧ containsSub pat s = false := by
  by_cases hp : pat.isPrefixOf (c :: s)
  · rw [containsSub, splitFirst_cons_pos hp] at h
    simp at h
  · refine ⟨by simp [hp], ?_⟩
    rw [containsSub, splitFirst_cons_neg hp] at h
    rcases hsp : splitFirst pat s with _ | ⟨pre, post⟩
    · simp [containsSub, hsp]
    · rw [hsp] at h; simp at h

theorem containsSub_of_decomp {pat : PyStr} :
    ∀ (a : PyStr) {b s : PyStr}, s = a ++ pat ++ b → containsSub pat s = true := by
  intro a
  induction a with
  | nil =>
    intro b s hs
    subst hs
    exact containsSub_of_prefix (by simp)
  | cons x a ih =>
    intro b s hs
    subst hs
    exact containsSub_cons x (ih rfl)

/-- The key positional lemma: if `pat` does not occur in `base` and the
marker character `c` does not occur in `pat`, then in
`base ++ c :: pat ++ rest` the first occurrence of `pat` is exactly the
explicit one. -/
theorem splitFirst_marker {pat : PyStr} :
    ∀ (base : PyStr) {rest : PyStr} {c : Char}, pat ≠ [] → c ∉ pat →
      containsSub pat base = false →
      splitFirst pat (base ++ (c :: (pat ++ rest))) = some (base ++ [c], rest) := by
  intro base
  induction base with
  | nil =>
    intro rest c hpat hc _
    have hnp : ¬ pat.isPrefixOf (c :: (pat ++ rest)) := by
      intro hp
      cases pat with
      | nil => exact hpat rfl
      | cons p ps =>
        obtain ⟨rfl, -⟩ := List.cons_prefix_cons.mp (List.isPrefixOf_iff_prefix.mp hp)
        exact hc (List.mem_cons_self ..)
    rw [List.nil_append, splitFirst_cons_neg hnp, splitFirst_self_append hpat]
    simp
  | cons b bs ih =>
    intro rest c hpat hc hbase
    obtain ⟨hnp, hbs⟩ := containsSub_cons_false hbase
    have hnp2 : ¬ pat.isPrefixOf (b :: (bs ++ (c :: (pat ++ rest)))) := by
      intro hp
      have hp2 : pat <+: (b :: bs) ++ (c :: (pat ++ rest)) := by
        simpa using List.isPrefixOf_iff_prefix.mp hp
      rcases prefix_append_cons_cases (b :: bs) hp2 with h1 | h2
      · exact absurd (List.isPrefixOf_iff_prefix.mpr h1) (by simp [hnp])
      · exact hc h2
    show splitFirst pat (b :: (bs ++ (c :: (pat ++ rest)))) = some (b :: (bs ++ [c]), rest)
    rw [splitFirst_cons_neg hnp2, ih hpat hc hbs]

theorem replaceAllAux_congr_fuel (pat repl : PyStr) :
    ∀ (f1 f2 : Nat) (s : PyStr), s.length ≤ f1 → s.length ≤ f2 →
      replaceAllAux pat repl f1 s = replaceAllAux pat repl f2 s := by
  intro f1
  induction f1 with
  | zero =>
    intro f2 s h1 _
    rw [List.length_eq_zero.mp (Nat.le_zero.mp h1)]
    cases f2 <;> simp [replaceAllAux]
  | succ g1 ih =>
    intro f2 s h1 h2
    cases s with
    | nil => cases f2 <;> simp [replaceAllAux]
    | cons c t =>
      cases f2 with
      | zero => exact absurd h2 (by simp)
      | succ g2 =>
        have ht1 : t.length ≤ g1 := Nat.le_of_succ_le_succ (by simpa using h1)
        have ht2 : t.length ≤ g2 := Nat.le_of_succ_le_succ (by simpa using h2)
        simp only [replaceAllAux]
        split
        · rw [ih g2 (t.drop (pat.length - 1))
            (le_trans (by simp) ht1) (le_trans (by simp) ht2)]
        · rw [ih g2 t ht1 ht2]

theorem replaceAllAux_eq_self {pat repl : PyStr} :
    ∀ (fuel : Nat) (s : PyStr), splitFirst pat s = none →
      replaceAllAux pat repl fuel s = s := by
  intro fuel
  induction fuel with
  | zero => intro s _; cases s <;> rfl
  | succ g ih =>
    intro s h
    cases s with
    | nil => rfl
    | cons c t =>
      have hnp : ¬ pat.isPrefixOf (c :: t) := by
        intro hp
        rw [splitFirst_cons_pos hp] at h
        exact absurd h (by simp)
      rw [splitFirst_cons_neg hnp] at h
      have hts : splitFirst pat t = none := by
        rcases hsp : splitFirst pat t with _ | ⟨pre, post⟩
        · rfl
        · rw [hsp] at h; exact absurd h (by simp)
      simp only [replaceAllAux]
      rw [if_neg (by simp [hnp]), ih t hts]

theorem replaceAll_eq_self {pat repl s : PyStr} (h : splitFirst pat s = none) :
    replaceAll pat repl s = s :=
  replaceAllAux_eq_self s.length s h

theorem replaceAll_decomp {pat repl : PyStr} (hpat : pat ≠ []) :
    ∀ {s pre post : PyStr}, splitFirst pat s = some (pre, post) →
      replaceAll pat repl s = pre ++ repl ++ replaceAll pat repl post := by
  suffices haux : ∀ (fuel : Nat) (s pre post : PyStr), s.length ≤ fuel →
      splitFirst pat s = some (pre, post) →
      replaceAllAux pat repl fuel s = pre ++ repl ++ replaceAll pat repl post by
    intro s pre post h
    exact haux s.length s pre post (le_refl _) h
  intro fuel
  induction fuel with
  | zero =>
    intro s pre post h1 h
    rw [List.length_eq_zero.mp (Nat.le_zero.mp h1)] at h
    simp only [splitFirst] at h
    rw [if_neg (by simpa using hpat)] at h
    exact absurd h (by simp)
  | succ g ih =>
    intro s pre post h1 h
    cases s with
    | nil =>
      simp only [splitFirst] at h
      rw [if_neg (by simpa using hpat)] at h
      exact absurd h (by simp)
    | cons c t =>
      have ht1 : t.length ≤ g := Nat.le_of_succ_le_succ (by simpa using h1)
      by_cases hp : pat.isPrefixOf (c :: t)
      · rw [splitFirst_cons_pos hp] at h
        simp only [Option.some.injEq, Prod.mk.injEq] at h
        obtain ⟨h2, h3⟩ := h
        subst h2
        obtain ⟨k, hk⟩ : ∃ k, pat.length = k + 1 :=
          ⟨pat.length - 1, (Nat.succ_pred_eq_of_pos (List.length_pos.mpr hpat)).symm⟩
        have hdrop : (c :: t).drop pat.length = t.drop (pat.length - 1) := by
          rw [hk]; simp
        subst h3
        simp only [replaceAllAux]
        rw [if_pos (by simp [hp, List.isEmpty_iff, hpat])]
        rw [hdrop, List.nil_append]
        congr 1
        rw [replaceAll]
        refine replaceAllAux_congr_fuel pat repl g _ _ ?_ (le_refl _)
        have := List.length_drop (pat.length - 1) t
        omega
      · rw [splitFirst_cons_neg hp] at h
        rcases hsp : splitFirst pat t with _ | ⟨pre2, post2⟩ <;> rw [hsp] at h
        · exact absurd h (by simp)
        · simp only [Option.some.injEq, Prod.mk.injEq] at h
          obtain ⟨h2, h3⟩ := h
          subst h2; subst h3
          simp only [replaceAllAux]
          rw [if_neg (by simp [hp]), ih t pre2 post2 ht1 hsp]
          simp

theorem countOccurAux_congr_fuel {pat : PyStr} (hpat : pat ≠ []) :
    ∀ (f1 f2 : Nat) (s : PyStr), s.length ≤ f1 → s.length ≤ f2 →
      countOccurAux pat f1 s = countOccurAux pat f2 s := by
  intro f1
  induction f1 with
  | zero =>
    intro f2 s h1 _
    rw [List.length_eq_zero.mp (Nat.le_zero.mp h1)]
    cases f2 with
    | zero => rfl
    | succ g =>
      simp only [countOccurAux, splitFirst]
      rw [if_neg (by simpa using hpat)]
  | succ g1 ih =>
    intro f2 s h1 h2
    cases f2 with
    | zero =>
      rw [List.length_eq_zero.mp (Nat.le_zero.mp h2)]
      simp only [countOccurAux, splitFirst]
      rw [if_neg (by simpa using hpat)]
    | succ g2 =>
      simp only [countOccurAux]
      rcases hsp : splitFirst pat s with _ | ⟨pre, post⟩
      · rfl
      · have hlen : post.length + 1 ≤ s.length := by
          rw [splitFirst_sound hsp]
          simp only [List.length_append]
          have : 1 ≤ pat.length := List.length_pos.mpr hpat
          omega
        show 1 + countOccurAux pat g1 post = 1 + countOccurAux pat g2 post
        rw [ih g2 post (by omega) (by omega)]

theorem countOccur_eq_zero {pat s : PyStr} (h : splitFirst pat s = none) :
    countOccur pat s = 0 := by
  rw [countOccur]
  cases s with
  | nil => rfl
  | cons c t => simp only [countOccurAux, List.length_cons, h]

theorem countOccur_decomp {pat : PyStr} (hpat : pat ≠ []) {s pre post : PyStr}
    (h : splitFirst pat s = some (pre, post)) :
    countOccur pat s = 1 + countOccur pat post := by
  have hlen : post.length + 1 ≤ s.length := by
    rw [splitFirst_sound h]
    simp only [List.length_append]
    have : 1 ≤ pat.length := List.length_pos.mpr hpat
    omega
  obtain ⟨m, hm⟩ : ∃ m, s.length = m + 1 := ⟨s.length - 1, by omega⟩
  rw [countOccur, hm]
  simp only [countOccurAux, h]
  rw [countOccur]
  rw [countOccurAux_congr_fuel hpat m post.length post (by omega) (le_refl _)]

end Neo4jMcp

namespace Neo4jMcp

-- Smoke tests of the string model (these mirror Python behaviour).
example : splitFirst (pys "BY") (pys "ORDER BY x") = some (pys "ORDER ", pys " x") := by decide
example : containsSub (pys "LIMIT") (pys "RETURN n LIMIT 10") = true := by decide
example : replaceAll (pys "WHERE") (pys "WHERE c AND") (pys "a WHERE x WHERE y") =
    pys "a WHERE c AND x WHERE c AND y" := by decide
example : splitAll (pys ", ") (pys "a, b, c") = [pys "a", pys "b", pys "c"] := by decide
example : countOccur (pys "aa") (pys "aaaa") = 2 := by decide

/-! ### Further helper lemmas -/

theorem containsSub_eq_false_iff {pat s : PyStr} :
    containsSub pat s = false ↔ splitFirst pat s = none := by
  rw [containsSub, Bool.eq_false_iff]
  constructor
  · intro h
    exact Option.not_isSome_iff_eq_none.mp h
  · intro h
    rw [h]
    simp

theorem containsSub_append_left {p q s : PyStr} (h : containsSub (p ++ q) s = true) :
    containsSub p s = true := by
  rw [containsSub, Option.isSome_iff_exists] at h
  obtain ⟨⟨a, b⟩, hab⟩ := h
  have hs := splitFirst_sound hab
  exact containsSub_of_decomp a (b := q ++ b) (by rw [hs]; simp)

end Neo4jMcp

namespace Neo4jMcp

/-!
### Claims C1, C3, C7: the customization transformations

C1 concerns `order_by` on a query that already contains `ORDER BY`; C3
concerns `additional_where`; C7 concerns `limit` on a query with no
`LIMIT` clause.
-/

/-- C1, counterexample: customizing
`"MATCH (n) RETURN n ORDER BY n.name LIMIT 10"` with
`order_by = "n.age DESC"` does **not** preserve the `LIMIT 10` clause: the
code truncates the query at the first `ORDER BY` and appends the new
ordering, so the result is `"MATCH (n) RETURN n ORDER BY n.age DESC"`,
which contains no `LIMIT` at all. -/
theorem C1_counterexample :
    applyOrderBy (pys "n.age DESC") (pys "MATCH (n) RETURN n ORDER BY n.name LIMIT 10") =
      pys "MATCH (n) RETURN n ORDER BY n.age DESC" ∧
    containsSub (pys "LIMIT")
      (applyOrderBy (pys "n.age DESC")
        (pys "MATCH (n) RETURN n ORDER BY n.name LIMIT 10")) = false := by
  constructor
  · decide
  · decide

/-- C1 (amended): for every query text containing an `ORDER BY` clause,
the `order_by` customization keeps only the part of the query before the
first `ORDER BY` and replaces everything from `ORDER BY` onwards
(including any `LIMIT` clause) by `ORDER BY {order_by}`. -/
theorem C1_orderBy_truncates_at_order_by (ob q pre post : PyStr)
    (h : splitFirst (pys "ORDER BY") q = some (pre, post)) :
    applyOrderBy ob q = pre ++ pys "ORDER BY " ++ ob := by
  have hc : containsSub (pys "ORDER BY") q = true := by
    rw [containsSub, h]; rfl
  simp only [applyOrderBy, hc, if_true, h]

/-- C1 witness: the amended statement evaluated on the claim's concrete
query. -/
theorem C1_witness :
    applyOrderBy (pys "n.age DESC") (pys "MATCH (n) RETURN n ORDER BY n.name LIMIT 10") =
      pys "MATCH (n) RETURN n " ++ pys "ORDER BY " ++ pys "n.age DESC" :=
  C1_orderBy_truncates_at_order_by (pys "n.age DESC") _
    (pys "MATCH (n) RETURN n ") (pys " n.name LIMIT 10") (by decide)

/-- C3, counterexample: on a query containing two `WHERE` keywords,
`additional_where` conjoins the clause after **both** occurrences
(Python `str.replace` replaces every occurrence), so the remainder of the
query is not left unchanged as the claim states. -/
theorem C3_counterexample :
    applyAdditionalWhere (pys "a.name = $name")
        (pys "MATCH (a:Person) WHERE a.age > 25 MATCH (b:City) WHERE b.pop > 10 RETURN a") =
      pys "MATCH (a:Person) WHERE a.name = $name AND a.age > 25 MATCH (b:City) WHERE a.name = $name AND b.pop > 10 RETURN a" ∧
    applyAdditionalWhere (pys "a.name = $name")
        (pys "MATCH (a:Person) WHERE a.age > 25 MATCH (b:City) WHERE b.pop > 10 RETURN a") ≠
      pys "MATCH (a:Person) WHERE a.name = $name AND a.age > 25 MATCH (b:City) WHERE b.pop > 10 RETURN a" := by
  constructor
  · decide
  · decide

/-- C3 (amended): the `additional_where` customization conjoins the
clause after **every** occurrence of `WHERE`: writing the query as
`pre ++ "WHERE" ++ post` at the first occurrence, the result is
`pre ++ "WHERE {clause} AND" ++ (the rest, rewritten the same way)`; in
particular when `WHERE` occurs exactly once the rest of the query is
unchanged.  If the query has no `WHERE`, the clause is inserted
immediately after the first `")"` when one exists, and the query is left
unchanged when there is none. -/
theorem C3_additionalWhere_characterization (wc q : PyStr) :
    (∀ pre post, splitFirst (pys "WHERE") q = some (pre, post) →
        applyAdditionalWhere wc q =
          pre ++ (pys "WHERE " ++ wc ++ pys " AND") ++
            replaceAll (pys "WHERE") (pys "WHERE " ++ wc ++ pys " AND") post) ∧
    (∀ pre post, splitFirst (pys "WHERE") q = some (pre, post) →
        containsSub (pys "WHERE") post = false →
        applyAdditionalWhere wc q = pre ++ (pys "WHERE " ++ wc ++ pys " AND") ++ post) ∧
    (containsSub (pys "WHERE") q = false →
      ∀ pre post, splitFirst (pys ")") q = some (pre, post) →
        applyAdditionalWhere wc q = pre ++ (pys ")\nWHERE " ++ wc) ++ post) ∧
    (containsSub (pys "WHERE") q = false → splitFirst (pys ")") q = none →
      applyAdditionalWhere wc q = q) := by
  refine ⟨?_, ?_, ?_, ?_⟩
  · intro pre post h
    have hc : containsSub (pys "WHERE") q = true := by rw [containsSub, h]; rfl
    simp only [applyAdditionalWhere, hc, if_true]
    exact replaceAll_decomp (by decide) h
  · intro pre post h hpost
    have hc : containsSub (pys "WHERE") q = true := by rw [containsSub, h]; rfl
    simp only [applyAdditionalWhere, hc, if_true]
    rw [replaceAll_decomp (by decide) h,
      replaceAll_eq_self (containsSub_eq_false_iff.mp hpost)]
  · intro hc pre post h
    simp only [applyAdditionalWhere, hc, Bool.false_eq_true, if_false, h]
    have hjoin : pys ")" ++ (pys "\nWHERE " ++ wc) = pys ")\nWHERE " ++ wc := by
      have : pys ")" ++ pys "\nWHERE " = pys ")\nWHERE " := by decide
      rw [← this, List.append_assoc]
    rw [List.append_assoc pre (pys ")") (pys "\nWHERE " ++ wc), hjoin]
  · intro hc h
    simp only [applyAdditionalWhere, hc, Bool.false_eq_true, if_false, h]

/-- C7: on a base query containing no `LIMIT` clause, the `limit`
customization with value `5` appends exactly one `LIMIT 5`, and applying
it a second time yields the same final text (idempotent on a pristine
base). -/
theorem C7_limit_append_idempotent (base : PyStr)
    (hb : containsSub (pys "LIMIT") base = false) :
    applyLimit (pys "5") base = base ++ pys "\nLIMIT 5" ∧
    countOccur (pys "LIMIT 5") (applyLimit (pys "5") base) = 1 ∧
    applyLimit (pys "5") (applyLimit (pys "5") base) = applyLimit (pys "5") base := by
  have h1 : applyLimit (pys "5") base = base ++ pys "\nLIMIT 5" := by
    simp only [applyLimit, hb, Bool.false_eq_true, if_false]
    rw [List.append_assoc]
    congr 1
  have hb2 : containsSub (pys "LIMIT 5") base = false := by
    by_contra hcon
    rw [Bool.not_eq_false] at hcon
    have he : pys "LIMIT 5" = pys "LIMIT" ++ pys " 5" := by decide
    have := containsSub_append_left (he ▸ hcon)
    rw [this] at hb
    exact absurd hb (by simp)
  have hsplit57 : splitFirst (pys "LIMIT 5") (base ++ pys "\nLIMIT 5") =
      some (base ++ ['\n'], []) := by
    have hd : pys "\nLIMIT 5" = '\n' :: (pys "LIMIT 5" ++ ([] : PyStr)) := by decide
    rw [hd]
    exact splitFirst_marker base (by decide) (by decide) hb2
  have hsplitL : splitFirst (pys "LIMIT") (base ++ pys "\nLIMIT 5") =
      some (base ++ ['\n'], pys " 5") := by
    have hd : pys "\nLIMIT 5" = '\n' :: (pys "LIMIT" ++ pys " 5") := by decide
    rw [hd]
    exact splitFirst_marker base (by decide) (by decide) hb
  have h2 : countOccur (pys "LIMIT 5") (base ++ pys "\nLIMIT 5") = 1 := by
    rw [countOccur_decomp (by decide) hsplit57,
      countOccur_eq_zero (by decide : splitFirst (pys "LIMIT 5") ([] : PyStr) = none)]
  have h3 : applyLimit (pys "5") (base ++ pys "\nLIMIT 5") = base ++ pys "\nLIMIT 5" := by
    have hc : containsSub (pys "LIMIT") (base ++ pys "\nLIMIT 5") = true := by
      rw [containsSub, hsplitL]; rfl
    simp only [applyLimit, hc, if_true, hsplitL]
    rw [List.append_assoc, List.append_assoc]
    congr 1
  refine ⟨h1, ?_, ?_⟩
  · rw [h1]; exact h2
  · rw [h1, h3, ← h1]

/-- C7 witness: the statement evaluated on a concrete pristine base
query. -/
theorem C7_witness :
    applyLimit (pys "5") (pys "MATCH (n) RETURN n") =
      pys "MATCH (n) RETURN n" ++ pys "\nLIMIT 5" ∧
    countOccur (pys "LIMIT 5") (applyLimit (pys "5") (pys "MATCH (n) RETURN n")) = 1 ∧
    applyLimit (pys "5") (applyLimit (pys "5") (pys "MATCH (n) RETURN n")) =
      applyLimit (pys "5") (pys "MATCH (n) RETURN n") :=
  C7_limit_append_idempotent (pys "MATCH (n) RETURN n") (by decide)

/-! ### Claims C4, C5: the schema validator -/

theorem isMissingLabelsIssue_self (x : PyStr) :
    isMissingLabelsIssue (labelsMissingMsg ++ x) = true := by
  rw [isMissingLabelsIssue, List.isPrefixOf_iff_prefix]
  exact ⟨x, rfl⟩

theorem isMissingLabelsIssue_rel (x : PyStr) :
    isMissingLabelsIssue (relsMissingMsg ++ x) = false := rfl

theorem isMissingLabelsIssue_qw (w : PyStr) :
    isMissingLabelsIssue (pys "Template query warning: " ++ w) = false := rfl

theorem filter_missing_label_issues (schema : CurrentSchema)
    (explainResult : Except PyStr ExplainInfo) (req reqR : List PyStr) :
    (validate_template_compatibility schema explainResult req reqR).filter
        isMissingLabelsIssue =
      (if req.dedup.filter
            (fun l => !(((schema.nodes.map NodeTypeRow.nodeType).dedup).contains l)) ≠ [] then
        [labelsMissingMsg ++ renderStrSet (req.dedup.filter
            (fun l => !(((schema.nodes.map NodeTypeRow.nodeType).dedup).contains l)))]
       else []) := by
  simp only [validate_template_compatibility]
  rw [List.filter_append, List.filter_append]
  have hqw : ((validate_query_against_schema explainResult schema).map
      (fun w => pys "Template query warning: " ++ w)).filter isMissingLabelsIssue = [] := by
    rw [List.filter_eq_nil_iff]
    intro a ha
    obtain ⟨w, -, rfl⟩ := List.mem_map.mp ha
    simp [isMissingLabelsIssue_qw]
  have hi2 : ((if reqR.dedup.filter
          (fun r => !(((schema.relationships.map RelTypeRow.relType).dedup).contains r)) ≠ [] then
        [relsMissingMsg ++ renderStrSet (reqR.dedup.filter
          (fun r => !(((schema.relationships.map RelTypeRow.relType).dedup).contains r)))]
       else [])).filter isMissingLabelsIssue = [] := by
    split <;> simp [isMissingLabelsIssue_rel]
  rw [hqw, hi2, List.append_nil, List.append_nil]
  split <;> simp_all [isMissingLabelsIssue_self]

/-- C4: missing-labels issues are computed as the set difference
`required_labels − present labels`, with one issue string emitted for a
non-empty difference; for a schema whose label set is `{A}` and a template
requiring `{A, B}` with no required relationship types, exactly one
missing-labels issue results, and it mentions `B` and not `A` — whatever
the `EXPLAIN` dry-run returns. -/
theorem C4_missing_label_detection :
    (∀ (schema : CurrentSchema) (explainResult : Except PyStr ExplainInfo)
        (req reqR : List PyStr),
      (validate_template_compatibility schema explainResult req reqR).filter
          isMissingLabelsIssue =
        (if req.dedup.filter
              (fun l => !(((schema.nodes.map NodeTypeRow.nodeType).dedup).contains l)) ≠ [] then
          [labelsMissingMsg ++ renderStrSet (req.dedup.filter
              (fun l => !(((schema.nodes.map NodeTypeRow.nodeType).dedup).contains l)))]
         else [])) ∧
    (∀ explainResult : Except PyStr ExplainInfo,
      (validate_template_compatibility ⟨[⟨pys "A", [], []⟩], []⟩ explainResult
          [pys "A", pys "B"] []).filter isMissingLabelsIssue =
        [labelsMissingMsg ++ renderStrSet [pys "B"]]) ∧
    containsSub (pys "B") (labelsMissingMsg ++ renderStrSet [pys "B"]) = true ∧
    containsSub (pys "A") (labelsMissingMsg ++ renderStrSet [pys "B"]) = false := by
  refine ⟨filter_missing_label_issues, ?_, by decide, by decide⟩
  intro explainResult
  rw [filter_missing_label_issues]
  decide

/-- C5: `validate_query_against_schema` total on its embedded inputs; when
the `EXPLAIN` dry-run fails with message `e`, the failure is converted
into exactly one warning string in the returned list instead of
propagating. -/
theorem C5_explain_failure_one_warning
    (explainOracle : PyStr → List (PyStr × PyStr) → Except PyStr ExplainInfo)
    (query : PyStr) (parameters : List (PyStr × PyStr)) (schema : CurrentSchema)
    (e : PyStr) (h : explainOracle (pys "EXPLAIN " ++ query) parameters = Except.error e) :
    validate_query_with_driver explainOracle query parameters schema =
      [pys "Could not validate query: " ++ e] ∧
    (validate_query_with_driver explainOracle query parameters schema).length = 1 := by
  rw [validate_query_with_driver, h]
  exact ⟨rfl, rfl⟩

/-- C5 witness: a dry-run oracle that always fails, at a concrete query. -/
theorem C5_witness :
    validate_query_with_driver (fun _ _ => Except.error (pys "Invalid input"))
        (pys "MATCH (n RETURN n") [] ⟨[], []⟩ =
      [pys "Could not validate query: " ++ pys "Invalid input"] ∧
    (validate_query_with_driver (fun _ _ => Except.error (pys "Invalid input"))
        (pys "MATCH (n RETURN n") [] ⟨[], []⟩).length = 1 :=
  C5_explain_failure_one_warning (fun _ _ => Except.error (pys "Invalid input"))
    (pys "MATCH (n RETURN n") [] ⟨[], []⟩ (pys "Invalid input") rfl

/-! ### Claim C2: the execute failure taxonomy -/

/-- C2, counterexample: a template whose dry-validation finds issues (its
required label `Person` is absent from the schema, so
`validate_template_compatibility` is non-empty) is **not** rejected:
`execute_template` on its name succeeds, runs the query in a session
(non-empty trace), and returns the issues merely as response `warnings` —
it neither fails with a rejection error nor with any error at all. -/
theorem C2_counterexample :
    validate_template_compatibility ⟨[], []⟩ (Except.ok ⟨[], []⟩) [pys "Person"] [] ≠ [] ∧
    execute_template
        [(pys "count_by_label",
          { name := pys "count_by_label",
            query := pys "MATCH (n:Person) RETURN count(n) as count",
            required_labels := [pys "Person"] })]
        ⟨[], []⟩ (Except.ok ⟨[], []⟩)
        (fun _ _ => Except.ok [[(pys "count", PyVal.vint 0)]])
        ⟨pys "count_by_label", [], none⟩ =
      (Except.ok ⟨[[(pys "count", PyVal.vint 0)]], pys "count_by_label",
          [labelsMissingMsg ++ renderStrSet [pys "Person"]]⟩,
        [pys "MATCH (n:Person) RETURN count(n) as count"]) := by
  constructor
  · decide
  · rfl

/-- C2 (amended): `execute_template` has no Loaded/Rejected distinction:
a name outside the registry raises `ValueError("Unknown template: ...")`
with no session use; every registered template executes — regardless of
dry-validation issues, which are returned as the response's `warnings` —
and every failure of `execute_template` is either that unknown-template
`ValueError` or a propagated database error, never a rejection
failure. -/
theorem C2_no_rejected_state (registry : List (PyStr × QueryTemplate))
    (schema : CurrentSchema) (explainResult : Except PyStr ExplainInfo)
    (dbRun : PyStr → List (PyStr × PyVal) → Except PyError (List Row))
    (request : TemplateExecutionRequest) :
    (findTemplate registry request.template_name = none →
      execute_template registry schema explainResult dbRun request =
        (Except.error ⟨pys "ValueError",
          pys "Unknown template: " ++ request.template_name⟩, [])) ∧
    (∀ template rows, findTemplate registry request.template_name = some template →
      dbRun (executedQueryText template request) request.parameters = Except.ok rows →
      execute_template registry schema explainResult dbRun request =
        (Except.ok ⟨rows, request.template_name,
          validate_template_compatibility schema explainResult
            template.required_labels template.required_relationships⟩,
          [executedQueryText template request])) ∧
    (∀ e, (execute_template registry schema explainResult dbRun request).1 =
        Except.error e →
      e = ⟨pys "ValueError", pys "Unknown template: " ++ request.template_name⟩ ∨
      ∃ template, findTemplate registry request.template_name = some template ∧
        dbRun (executedQueryText template request) request.parameters =
          Except.error e) := by
  refine ⟨?_, ?_, ?_⟩
  · intro h
    simp only [execute_template, h]
  · intro template rows hf hdb
    simp only [execute_template, hf, hdb]
  · intro e he
    rcases hf : findTemplate registry request.template_name with _ | template
    · left
      simp only [execute_template, hf] at he
      exact (Except.error.inj he).symm
    · right
      rcases hdb : dbRun (executedQueryText template request) request.parameters
        with e2 | rows
      · simp only [execute_template, hf, hdb] at he
        refine ⟨template, rfl, ?_⟩
        rw [hdb]
        exact congrArg Except.error (Except.error.inj he)
      · simp only [execute_template, hf, hdb] at he
        exact absurd he (by simp)

/-- C2 witness: the unknown-template part of the amended statement at a
concrete empty registry. -/
theorem C2_witness :
    execute_template [] ⟨[], []⟩ (Except.ok ⟨[], []⟩)
        (fun _ _ => Except.ok []) ⟨pys "ghost", [], none⟩ =
      (Except.error ⟨pys "ValueError", pys "Unknown template: " ++ pys "ghost"⟩, []) :=
  (C2_no_rejected_state [] ⟨[], []⟩ (Except.ok ⟨[], []⟩) (fun _ _ => Except.ok [])
      ⟨pys "ghost", [], none⟩).1 rfl

/-! ### Claim C6: the façade error envelope -/

/-- C6: `handle_call_tool` on an unrecognized tool name returns the
structured error envelope naming the unknown tool, and every downstream
exception, on every route, is rendered into an error envelope rather than
escaping; successful downstream content is returned as-is. -/
theorem C6_unknown_tool_envelope
    (tH gH : PyStr → List (PyStr × PyVal) → Except PyError (List TextContent))
    (cH : List (PyStr × PyVal) → Except PyError (List TextContent)) :
    (∀ args, handle_call_tool tH gH cH (pys "not-a-real-tool") args =
      [⟨pys "text", jsonErrorDump (pys "ValueError") (pys "Unknown tool: not-a-real-tool")⟩]) ∧
    (∀ name args e, (pys "template.").isPrefixOf name = true →
      tH (((splitFirst (pys ".") name).map Prod.snd).getD []) args = Except.error e →
      handle_call_tool tH gH cH name args =
        [⟨pys "text", jsonErrorDump e.className e.message⟩]) ∧
    (∀ name args payload, (pys "template.").isPrefixOf name = true →
      tH (((splitFirst (pys ".") name).map Prod.snd).getD []) args = Except.ok payload →
      handle_call_tool tH gH cH name args = payload) ∧
    (∀ name args e, (pys "template.").isPrefixOf name = false →
      (name = pys "store-facts" ∨ name = pys "query-knowledge" ∨
        name = pys "find-connections") →
      gH name args = Except.error e →
      handle_call_tool tH gH cH name args =
        [⟨pys "text", jsonErrorDump e.className e.message⟩]) ∧
    (∀ name args, (pys "template.").isPrefixOf name = false →
      ¬(name = pys "store-facts" ∨ name = pys "query-knowledge" ∨
        name = pys "find-connections") →
      name ≠ pys "execute-cypher" →
      handle_call_tool tH gH cH name args =
        [⟨pys "text", jsonErrorDump (pys "ValueError") (pys "Unknown tool: " ++ name)⟩]) := by
  refine ⟨?_, ?_, ?_, ?_, ?_⟩
  · intro args
    simp only [handle_call_tool]
    rw [if_neg (by decide), if_neg (by decide), if_neg (by decide)]
    decide
  · intro name args e hpre herr
    simp only [handle_call_tool]
    rw [if_pos hpre, herr]
  · intro name args payload hpre hok
    simp only [handle_call_tool]
    rw [if_pos hpre, hok]
  · intro name args e hpre hname herr
    simp only [handle_call_tool]
    rw [if_neg (by simp [hpre]), if_pos hname, herr]
  · intro name args hpre hname hcy
    simp only [handle_call_tool]
    rw [if_neg (by simp [hpre]), if_neg hname, if_neg hcy]

/-- C6 witness: a failing template handler at a concrete tool name. -/
theorem C6_witness :
    handle_call_tool (fun _ _ => Except.error ⟨pys "RuntimeError", pys "boom"⟩)
        (fun _ _ => Except.ok []) (fun _ => Except.ok [])
        (pys "template.entity_search") [] =
      [⟨pys "text", jsonErrorDump (pys "RuntimeError") (pys "boom")⟩] :=
  (C6_unknown_tool_envelope (fun _ _ => Except.error ⟨pys "RuntimeError", pys "boom"⟩)
      (fun _ _ => Except.ok []) (fun _ => Except.ok [])).2.1
    (pys "template.entity_search") [] ⟨pys "RuntimeError", pys "boom"⟩ (by decide) rfl

/-! ### Claim C8: the two recognized validation-rule forms -/

/-- C8: a `"must be one of: ..."` rule reports an issue exactly when the
value's string form is not among the listed values; a
`"must be a positive integer ... less than or equal to N"` rule reports an
issue exactly when the value is not convertible to an integer, is not
strictly positive, or exceeds `N`; a rule matching neither recognized form
never produces an issue. -/
theorem C8_rule_forms (param rule : PyStr) (value : PyVal) :
    (∀ second, containsSub (pys "must be one of") rule = true →
      (splitAll (pys ": ") rule).get? 1 = some second →
      applyRule param rule value =
        Except.ok (if pyToStr value ∈ splitAll (pys ", ") second then []
          else [pys "Parameter " ++ apos ++ param ++ apos ++ pys " " ++ rule]) ∧
      (applyRule param rule value = Except.ok [] ↔
        pyToStr value ∈ splitAll (pys ", ") second)) ∧
    (∀ nStr lim, containsSub (pys "must be one of") rule = false →
      containsSub (pys "must be a positive integer") rule = true →
      containsSub (pys "less than or equal to") rule = true →
      (splitAll (pys "less than or equal to ") rule).get? 1 = some nStr →
      parsePyInt nStr = some lim →
      ∃ issues, applyRule param rule value = Except.ok issues ∧
        (issues = [] ↔ ∃ v, pyIntOf value = some v ∧ 0 < v ∧ v ≤ lim)) ∧
    (containsSub (pys "must be one of") rule = false →
      containsSub (pys "must be a positive integer") rule = false →
      applyRule param rule value = Except.ok []) := by
  refine ⟨?_, ?_, ?_⟩
  · intro second hm hsec
    simp only [applyRule, hm, if_true, hsec]
    by_cases hmem : pyToStr value ∈ splitAll (pys ", ") second
    · simp [hmem]
    · simp [hmem]
  · intro nStr lim hm hp hlt hsec hlim
    simp only [applyRule, hm, Bool.false_eq_true, if_false, hp, if_true]
    rcases hv : pyIntOf value with _ | v
    · refine ⟨[invalidValueMsg param], rfl, ?_⟩
      simp
    · simp only [hlt, if_true, hsec, hlim]
      by_cases hle : v ≤ 0
      · by_cases hgt : v > lim
        · refine ⟨_, rfl, ?_⟩
          simp only [if_pos hle, if_pos hgt]
          constructor
          · intro h; exact absurd h (by simp)
          · rintro ⟨v2, hv2, hpos, -⟩
            obtain rfl : v = v2 := Option.some.inj hv2
            omega
        · refine ⟨_, rfl, ?_⟩
          simp only [if_pos hle, if_neg hgt]
          constructor
          · intro h; exact absurd h (by simp)
          · rintro ⟨v2, hv2, hpos, -⟩
            obtain rfl : v = v2 := Option.some.inj hv2
            omega
      · by_cases hgt : v > lim
        · refine ⟨_, rfl, ?_⟩
          simp only [if_neg hle, if_pos hgt]
          constructor
          · intro h; exact absurd h (by simp)
          · rintro ⟨v2, hv2, -, hbound⟩
            obtain rfl : v = v2 := Option.some.inj hv2
            omega
        · refine ⟨_, rfl, ?_⟩
          simp only [if_neg hle, if_neg hgt]
          constructor
          · intro _
            exact ⟨v, rfl, by omega, by omega⟩
          · intro _; rfl
  · intro hm hp
    simp only [applyRule, hm, Bool.false_eq_true, if_false, hp]

/-- C8 witness: the repository's `entity_search` operator rule accepts the
listed value `>`. -/
theorem C8_witness :
    applyRule (pys "operator")
        (pys "must be one of: =, >, <, >=, <=, CONTAINS, STARTS WITH, ENDS WITH")
        (PyVal.vstr (pys ">")) = Except.ok [] :=
  ((C8_rule_forms (pys "operator")
      (pys "must be one of: =, >, <, >=, <=, CONTAINS, STARTS WITH, ENDS WITH")
      (PyVal.vstr (pys ">"))).1
    (pys "=, >, <, >=, <=, CONTAINS, STARTS WITH, ENDS WITH")
    (by decide) (by decide)).2.mpr (by decide)

/-! ### Claim C9: non-empty validation issues block execution -/

/-- C9: whenever `validate_template` returns a non-empty issue list —
advisory schema-compatibility warnings included — `_handle_template_tool`
raises a `ValidationError` before any database session is opened: no query
runs and no success response carrying the issues as warnings is
produced. -/
theorem C9_validation_blocks_execution (registry : List (PyStr × QueryTemplate))
    (schema : CurrentSchema) (explainResult : Except PyStr ExplainInfo)
    (dbRun : PyStr → List (PyStr × PyVal) → List Row)
    (template_name : PyStr) (arguments : List (PyStr × PyVal))
    (issues : List PyStr)
    (hval : handler_validate_template registry schema explainResult template_name arguments =
      Except.ok issues)
    (hne : issues ≠ []) :
    handle_template_tool registry schema explainResult dbRun template_name arguments =
      (ToolOutcome.raised ⟨pys "ValidationError", List.intercalate (pys "\n") issues⟩, []) ∧
    (∀ items,
      (handle_template_tool registry schema explainResult dbRun template_name arguments).1 ≠
        ToolOutcome.content items) ∧
    (handle_template_tool registry schema explainResult dbRun template_name arguments).2 =
      [] := by
  rcases hf : findTemplate registry template_name with _ | template
  · rw [handler_validate_template, hf] at hval
    exact absurd hval (by simp)
  · have hmain : handle_template_tool registry schema explainResult dbRun template_name
        arguments =
        (ToolOutcome.raised ⟨pys "ValidationError", List.intercalate (pys "\n") issues⟩,
          []) := by
      simp only [handle_template_tool, hf, hval, if_pos hne]
    refine ⟨hmain, ?_, ?_⟩
    · intro items
      rw [hmain]
      simp
    · rw [hmain]

/-- C9 witness: a template whose numeric rule rejects `limit = 0`; the
raised error and the empty query trace, concretely. -/
theorem C9_witness :
    handle_template_tool
        [(pys "graph_analytics",
          { name := pys "graph_analytics", query := pys "MATCH (n) RETURN n",
            validation_rules :=
              [(pys "limit", pys "must be a positive integer less than or equal to 100")] })]
        ⟨[], []⟩ (Except.ok ⟨[], []⟩) (fun _ _ => [])
        (pys "graph_analytics") [(pys "limit", PyVal.vint 0)] =
      (ToolOutcome.raised ⟨pys "ValidationError",
        List.intercalate (pys "\n")
          [pys "Parameter " ++ apos ++ pys "limit" ++ apos ++ pys " must be positive"]⟩,
        []) :=
  (C9_validation_blocks_execution
      [(pys "graph_analytics",
        { name := pys "graph_analytics", query := pys "MATCH (n) RETURN n",
          validation_rules :=
            [(pys "limit", pys "must be a positive integer less than or equal to 100")] })]
      ⟨[], []⟩ (Except.ok ⟨[], []⟩) (fun _ _ => [])
      (pys "graph_analytics") [(pys "limit", PyVal.vint 0)]
      [pys "Parameter " ++ apos ++ pys "limit" ++ apos ++ pys " must be positive"]
      rfl (by decide)).1

/-! ### Claim C10: max_depth interpolation in _find_connections -/

/-- C10: the `_find_connections` query text is built by splicing
`max_depth` directly into the variable-length pattern bound with no range
validation (any integer, even a negative one, is accepted and
interpolated), while the bound parameter map contains exactly the keys
`concept_a` and `concept_b` and is independent of `max_depth`. -/
theorem C10_max_depth_interpolation :
    (∀ args : ConnectionParams,
      (find_connections_params args).map Prod.fst = [pys "concept_a", pys "concept_b"]) ∧
    (∀ args : ConnectionParams,
      pys "max_depth" ∉ (find_connections_params args).map Prod.fst) ∧
    (∀ (a b : PyStr) (d1 d2 : Int),
      find_connections_params ⟨a, b, d1⟩ = find_connections_params ⟨a, b, d2⟩) ∧
    (∀ args : ConnectionParams,
      find_connections_query args = fcHead ++ intToPyStr args.max_depth ++ fcTail) ∧
    (∀ a b : PyStr, find_connections_query ⟨a, b, 3⟩ ≠ find_connections_query ⟨a, b, 4⟩) ∧
    (∀ a b : PyStr,
      containsSub (pys "RELATES*1..-5") (find_connections_query ⟨a, b, -5⟩) = true) := by
  refine ⟨fun args => rfl, ?_, fun a b d1 d2 => rfl, fun args => rfl, ?_, ?_⟩
  · intro args
    simp [find_connections_params]
    decide
  · intro a b
    show fcHead ++ intToPyStr 3 ++ fcTail ≠ fcHead ++ intToPyStr 4 ++ fcTail
    decide
  · intro a b
    show containsSub (pys "RELATES*1..-5") (fcHead ++ intToPyStr (-5) ++ fcTail) = true
    decide

/-- C3 witness: the single-`WHERE` part of the amended statement evaluated
on a concrete query. -/
theorem C3_witness :
    applyAdditionalWhere (pys "n.active") (pys "MATCH (n:Person) WHERE n.age > 25 RETURN n") =
      pys "MATCH (n:Person) " ++ (pys "WHERE " ++ pys "n.active" ++ pys " AND") ++
        pys " n.age > 25 RETURN n" :=
  (C3_additionalWhere_characterization (pys "n.active")
      (pys "MATCH (n:Person) WHERE n.age > 25 RETURN n")).2.1
    (pys "MATCH (n:Person) ") (pys " n.age > 25 RETURN n") (by decide) (by decide)

end Neo4jMcp
